import Mathlib

/-!
# Verification of the map-synchronization pass of `vesper-map-interface`

This file shallowly embeds the Sync Engine of `src/frontend/index.js`
(the `useEffect` body at lines 158-561) and proves the specification's
claims about it.

The pass works as follows in the source:
* it first detaches every marker/circle of the previous pass and resets
  `markersRef.current` / `circlesRef.current` to `[]` (lines 180-184);
* it creates a fresh `bounds`, a fresh `markerCount = 0` and computes
  `totalRecords = (requirementRecords?.length || 0) + (listingRecords?.length || 0)`
  (lines 186-189);
* `checkAndFitBounds` (lines 192-197) increments `markerCount` and, when
  `markerCount === totalRecords && !bounds.isEmpty()`, calls
  `mapInstanceRef.current.fitBounds(bounds)`;
* each Requirement record is processed in a per-record `try` block
  (lines 200-333): the address cell value is resolved (string → `trim()`,
  non-empty array → first element), and if truthy one geocode request is
  issued whose callback either creates a marker plus a 24140.16 m circle,
  extends `bounds` and ticks, or logs `Geocoding failed` and ticks; a
  falsy address logs `No address found` and ticks; a thrown exception is
  caught, logs `Error processing` and ticks;
* each Listing record is processed likewise (lines 336-558), except the
  success callback creates only a marker (no circle) and the
  missing-address branch ticks without logging anything.

Geocode callbacks are asynchronous and may settle in any order, so the
theorems below quantify over an arbitrary permutation of the per-record
callback events.
-/

namespace VesperMap

/-- A geocoded position (`results[0].geometry.location`).  The claims never
compute with coordinates, so an integral carrier suffices. -/
structure Pos where
  lat : Int
  lng : Int
deriving DecidableEq, Repr

/-- A cell value as the requirement branch of the source sees it
(line 205): JavaScript `null`/`undefined`, a string, or an array. -/
inductive CellValue where
  | nullV : CellValue
  | strV (s : String) : CellValue
  | arrV (xs : List String) : CellValue
deriving DecidableEq, Repr

/-- A Requirement record as consumed by the pass: the raw address cell
value, and whether reading the record's fields throws (modelling the
per-record `try`/`catch` of lines 202-331). -/
structure ReqRecord where
  addressValue : CellValue
  throws : Bool
deriving DecidableEq, Repr

/-- A Listing record as consumed by the pass: `getCellValueAsString`
result of the address field (`none` when the field is unset, line 348),
and whether reading the record's fields throws (lines 338-557). -/
structure ListRecord where
  address : Option String
  throws : Bool
deriving DecidableEq, Repr

/-- Address resolution for a Requirement record, lines 207-214 with the
truthiness test of line 219: `if (addressValue)` rejects `null` and `""`;
a string is trimmed (and the trimmed result must still be truthy); a
non-empty array contributes its first element (which must be truthy);
an empty array leaves `address = null`. -/
def resolveReqAddress : CellValue → Option String
  | CellValue.nullV => none
  | CellValue.strV s =>
      if s = "" then none
      else if s.trim = "" then none else some s.trim
  | CellValue.arrV xs =>
      match xs with
      | [] => none
      | x :: _ => if x = "" then none else some x

/-- Address resolution for a Listing record, lines 348 and 364:
`getCellValueAsString` yields a string (or the whole read is `null` when
the field is unset) and `if (address)` rejects `null` and `""`. -/
def resolveListAddress : Option String → Option String
  | none => none
  | some s => if s = "" then none else some s

/-- The geocoder, `new window.google.maps.Geocoder()` (line 187): one
request per address, the callback semantics `status === 'OK' && results[0]`
collapsed to `some position` on success and `none` otherwise. -/
def Geocoder : Type := String → Option Pos

/-- Marker kinds: blue requirement stars vs red listing dots. -/
inductive RecKind where
  | requirement : RecKind
  | listing : RecKind
deriving DecidableEq, Repr

/-- A marker pushed onto `markersRef.current` (lines 224-236, 369-380). -/
structure Marker where
  position : Pos
  kind : RecKind
deriving DecidableEq, Repr

/-- A circle pushed onto `circlesRef.current` (lines 304-315). -/
structure Circle where
  center : Pos
  radius : Rat
deriving DecidableEq, Repr

/-- The fixed requirement-circle radius, line 306: `radius: 24140.16`
("15 miles in meters"). -/
def requirementCircleRadius : Rat := 24140.16

/-- What the source writes to the console in the non-success branches. -/
inductive LogKind where
  | geocodeFailed : LogKind
  | noAddressFound : LogKind
  | processingError : LogKind
deriving DecidableEq, Repr

/-- The per-record completion event of one sync pass.  Every record
contributes exactly one of these, each ending in one `checkAndFitBounds()`
call: lines 318, 321, 326, 330 for Requirements and 545, 548, 552, 556
for Listings. -/
inductive Branch where
  | reqSuccess (p : Pos) : Branch
  | reqGeoFail : Branch
  | reqMissingAddr : Branch
  | reqException : Branch
  | listSuccess (p : Pos) : Branch
  | listGeoFail : Branch
  | listMissingAddr : Branch
  | listException : Branch
deriving DecidableEq, Repr

/-- The branch a Requirement record takes, lines 202-331: a thrown
exception is caught; otherwise a truthy resolved address is geocoded and
the callback branches on `status === 'OK' && results[0]`; a falsy address
goes to the missing-address branch. -/
def reqBranch (geo : Geocoder) (r : ReqRecord) : Branch :=
  if r.throws then Branch.reqException
  else
    match resolveReqAddress r.addressValue with
    | none => Branch.reqMissingAddr
    | some a =>
        match geo a with
        | some p => Branch.reqSuccess p
        | none => Branch.reqGeoFail

/-- The branch a Listing record takes, lines 338-557, analogously. -/
def listBranch (geo : Geocoder) (r : ListRecord) : Branch :=
  if r.throws then Branch.listException
  else
    match resolveListAddress r.address with
    | none => Branch.listMissingAddr
    | some a =>
        match geo a with
        | some p => Branch.listSuccess p
        | none => Branch.listGeoFail

/-- Whether a branch corresponds to an issued geocode request: a request
is sent (lines 220, 365) exactly when the record neither threw nor lacked
an address, i.e. in the branches reached from inside a geocode callback. -/
def issuesRequest : Branch → Bool
  | Branch.reqSuccess _ => true
  | Branch.reqGeoFail => true
  | Branch.listSuccess _ => true
  | Branch.listGeoFail => true
  | _ => false

/-- Whether the branch is a successful geocode callback. -/
def isSuccessB : Branch → Bool
  | Branch.reqSuccess _ => true
  | Branch.listSuccess _ => true
  | _ => false

/-- Whether the branch is a successful Requirement geocode callback. -/
def isReqSuccessB : Branch → Bool
  | Branch.reqSuccess _ => true
  | _ => false

/-- Whether the branch is a successful Listing geocode callback. -/
def isListSuccessB : Branch → Bool
  | Branch.listSuccess _ => true
  | _ => false

/-- The marker a branch pushes onto `markersRef.current`, if any
(lines 301, 543). -/
def markerOf : Branch → Option Marker
  | Branch.reqSuccess p => some { position := p, kind := RecKind.requirement }
  | Branch.listSuccess p => some { position := p, kind := RecKind.listing }
  | _ => none

/-- The circle a branch pushes onto `circlesRef.current`, if any
(line 315: only the Requirement success branch creates a circle). -/
def circleOf : Branch → Option Circle
  | Branch.reqSuccess p => some { center := p, radius := requirementCircleRadius }
  | _ => none

/-- The position a branch extends `bounds` with, if any (lines 317, 544). -/
def posOf : Branch → Option Pos
  | Branch.reqSuccess p => some p
  | Branch.listSuccess p => some p
  | _ => none

/-- The console warning a branch emits, if any: `Geocoding failed for:`
(lines 320, 547), `No address found for requirement record` (line 325),
`Error processing ... record:` (lines 329, 555).  The Listing
missing-address branch (lines 551-553) emits nothing. -/
def logOf : Branch → Option LogKind
  | Branch.reqGeoFail => some LogKind.geocodeFailed
  | Branch.reqMissingAddr => some LogKind.noAddressFound
  | Branch.reqException => some LogKind.processingError
  | Branch.listGeoFail => some LogKind.geocodeFailed
  | Branch.listException => some LogKind.processingError
  | _ => none

/-- The mutable state of one sync pass: the two overlay lists, the
per-pass `bounds` (as the list of positions it was extended with),
`markerCount`, the number of `fitBounds` invocations and the console
log. -/
structure PassState where
  markers : List Marker
  circles : List Circle
  bounds : List Pos
  markerCount : Nat
  fitCalls : Nat
  logs : List LogKind
deriving DecidableEq, Repr

/-- The pass-local state right after clearing, lines 182-188: empty
overlay lists, an empty `LatLngBounds`, `markerCount = 0`. -/
def initState : PassState :=
  { markers := [], circles := [], bounds := [], markerCount := 0,
    fitCalls := 0, logs := [] }

/-- `totalRecords`, line 189:
`(requirementRecords?.length || 0) + (listingRecords?.length || 0)`. -/
def totalRecords (reqs : List ReqRecord) (lists : List ListRecord) : Nat :=
  reqs.length + lists.length

/-- `checkAndFitBounds`, lines 192-197: increment `markerCount`, and when
it equals `totalRecords` and `bounds` is non-empty, call `fitBounds`. -/
def checkAndFitBounds (total : Nat) (s : PassState) : PassState :=
  let s' := { s with markerCount := s.markerCount + 1 }
  if s'.markerCount = total ∧ s'.bounds ≠ [] then
    { s' with fitCalls := s'.fitCalls + 1 }
  else s'

/-- The overlay/bounds/log effect of one completion event, before its
final `checkAndFitBounds()` call. -/
def applyBranch (s : PassState) : Branch → PassState
  | Branch.reqSuccess p =>
      { s with markers := s.markers ++ [{ position := p, kind := RecKind.requirement }],
               circles := s.circles ++ [{ center := p, radius := requirementCircleRadius }],
               bounds := s.bounds ++ [p] }
  | Branch.reqGeoFail => { s with logs := s.logs ++ [LogKind.geocodeFailed] }
  | Branch.reqMissingAddr => { s with logs := s.logs ++ [LogKind.noAddressFound] }
  | Branch.reqException => { s with logs := s.logs ++ [LogKind.processingError] }
  | Branch.listSuccess p =>
      { s with markers := s.markers ++ [{ position := p, kind := RecKind.listing }],
               bounds := s.bounds ++ [p] }
  | Branch.listGeoFail => { s with logs := s.logs ++ [LogKind.geocodeFailed] }
  | Branch.listMissingAddr => s
  | Branch.listException => { s with logs := s.logs ++ [LogKind.processingError] }

/-- One completion event: its overlay/log effect followed by its
`checkAndFitBounds()` call. -/
def step (total : Nat) (s : PassState) (b : Branch) : PassState :=
  checkAndFitBounds total (applyBranch s b)

/-- Run a sequence of completion events from a given state. -/
def runFrom (total : Nat) (s : PassState) (ts : List Branch) : PassState :=
  ts.foldl (step total) s

/-- Run a sequence of completion events from the fresh per-pass state. -/
def runTicks (total : Nat) (ts : List Branch) : PassState :=
  runFrom total initState ts

/-- The multiset of completion events one pass generates, one per record:
the Requirements `forEach` (lines 200-333) then the Listings `forEach`
(lines 336-559).  Callbacks may settle in any order, so theorems quantify
over permutations of this list. -/
def derivedBranches (geo : Geocoder) (reqs : List ReqRecord)
    (lists : List ListRecord) : List Branch :=
  reqs.map (reqBranch geo) ++ lists.map (listBranch geo)

/-- The whole pass in its canonical event order. -/
def runPass (geo : Geocoder) (reqs : List ReqRecord)
    (lists : List ListRecord) : PassState :=
  runTicks (totalRecords reqs lists) (derivedBranches geo reqs lists)

/-- Number of geocode requests a pass issues (one per record whose
processing reaches line 220 resp. 365). -/
def geocodeRequests (geo : Geocoder) (reqs : List ReqRecord)
    (lists : List ListRecord) : Nat :=
  (derivedBranches geo reqs lists).countP (fun b => issuesRequest b)

/-- Whether a Requirement record has a (truthy) resolved address. -/
def reqHasAddress (r : ReqRecord) : Bool :=
  (resolveReqAddress r.addressValue).isSome

/-- Whether a Listing record has a (truthy) resolved address. -/
def listHasAddress (r : ListRecord) : Bool :=
  (resolveListAddress r.address).isSome

/-- Total overlays created by a pass, in the specification's sense of
"Overlay: either a Marker or a Circle". -/
def overlaysCreated (s : PassState) : Nat :=
  s.markers.length + s.circles.length

/-- The component-held overlay refs that survive between passes
(`markersRef.current`, `circlesRef.current`). -/
structure Refs where
  markers : List Marker
  circles : List Circle
deriving DecidableEq, Repr

/-- One full sync pass at the component level, lines 180-559: detach every
previous-pass marker and circle (`setMap(null)`, lines 181 and 183 — the
detached handles are returned as the second component), reset both ref
lists to `[]`, then rebuild them from the current inputs.  -/
def syncPass (geo : Geocoder) (reqs : List ReqRecord)
    (lists : List ListRecord) (refs : Refs) : Refs × (List Marker × List Circle) :=
  let detached := (refs.markers, refs.circles)
  let final := runPass geo reqs lists
  ({ markers := final.markers, circles := final.circles }, detached)

/-- Two overlapping passes, an earlier one (tagged `true`) and a newer
one (tagged `false`), each with its own expected total.  `bounds`,
`markerCount` and `checkAndFitBounds` are `const` locals of one effect
execution (lines 186-197), so every callback closure can only read and
write the counter/bounds pair of the pass that created it; a tagged event
therefore steps exactly its own pass's state. -/
def stepTagged (totalA totalB : Nat) (s : PassState × PassState)
    (t : Bool × Branch) : PassState × PassState :=
  if t.1 then (step totalA s.1 t.2, s.2) else (s.1, step totalB s.2 t.2)

/-- Run an arbitrary interleaving of two passes' completion events, each
pass starting from its own fresh state. -/
def runInterleaved (totalA totalB : Nat) (ts : List (Bool × Branch)) :
    PassState × PassState :=
  ts.foldl (stepTagged totalA totalB) (initState, initState)

/-- A geocoder for concrete runs: every address resolves to (1, 2). -/
def geoAll : Geocoder := fun _ => some { lat := 1, lng := 2 }

/-- A geocoder for concrete runs: every address fails to resolve. -/
def geoNone : Geocoder := fun _ => none

/-- A Requirement record whose address cell holds the array `["A"]`
(the linked-record-style cell shape of line 211 sq.), resolving to the
address `"A"`. -/
def reqA : ReqRecord := { addressValue := CellValue.arrV ["A"], throws := false }

/-- A Requirement record with an empty address cell. -/
def reqNoAddr : ReqRecord := { addressValue := CellValue.nullV, throws := false }

/-- A Requirement record whose field reads throw. -/
def reqThrows : ReqRecord := { addressValue := CellValue.strV "A", throws := true }

/-- A Listing record whose address cell reads as `"B"`. -/
def listB : ListRecord := { address := some "B", throws := false }

/-- A Listing record whose address cell reads as the empty string. -/
def listEmptyAddr : ListRecord := { address := some "", throws := false }

/-- A Listing record whose field reads throw. -/
def listThrows : ListRecord := { address := some "B", throws := true }

/-! ## Field characterizations of one step -/

lemma checkAndFitBounds_markers (total : Nat) (s : PassState) :
    (checkAndFitBounds total s).markers = s.markers := by
  simp only [checkAndFitBounds]
  split <;> rfl

lemma checkAndFitBounds_circles (total : Nat) (s : PassState) :
    (checkAndFitBounds total s).circles = s.circles := by
  simp only [checkAndFitBounds]
  split <;> rfl

lemma checkAndFitBounds_bounds (total : Nat) (s : PassState) :
    (checkAndFitBounds total s).bounds = s.bounds := by
  simp only [checkAndFitBounds]
  split <;> rfl

lemma checkAndFitBounds_logs (total : Nat) (s : PassState) :
    (checkAndFitBounds total s).logs = s.logs := by
  simp only [checkAndFitBounds]
  split <;> rfl

lemma checkAndFitBounds_markerCount (total : Nat) (s : PassState) :
    (checkAndFitBounds total s).markerCount = s.markerCount + 1 := by
  simp only [checkAndFitBounds]
  split <;> rfl

lemma checkAndFitBounds_fitCalls (total : Nat) (s : PassState) :
    (checkAndFitBounds total s).fitCalls =
      s.fitCalls + (if s.markerCount + 1 = total ∧ s.bounds ≠ [] then 1 else 0) := by
  simp only [checkAndFitBounds]
  by_cases h : s.markerCount + 1 = total ∧ s.bounds ≠ []
  · simp [h]
  · simp [h]

lemma applyBranch_markers (s : PassState) (b : Branch) :
    (applyBranch s b).markers = s.markers ++ (markerOf b).toList := by
  cases b <;> simp [applyBranch, markerOf]

lemma applyBranch_circles (s : PassState) (b : Branch) :
    (applyBranch s b).circles = s.circles ++ (circleOf b).toList := by
  cases b <;> simp [applyBranch, circleOf]

lemma applyBranch_bounds (s : PassState) (b : Branch) :
    (applyBranch s b).bounds = s.bounds ++ (posOf b).toList := by
  cases b <;> simp [applyBranch, posOf]

lemma applyBranch_logs (s : PassState) (b : Branch) :
    (applyBranch s b).logs = s.logs ++ (logOf b).toList := by
  cases b <;> simp [applyBranch, logOf]

lemma applyBranch_markerCount (s : PassState) (b : Branch) :
    (applyBranch s b).markerCount = s.markerCount := by
  cases b <;> rfl

lemma applyBranch_fitCalls (s : PassState) (b : Branch) :
    (applyBranch s b).fitCalls = s.fitCalls := by
  cases b <;> rfl

lemma step_markers (total : Nat) (s : PassState) (b : Branch) :
    (step total s b).markers = s.markers ++ (markerOf b).toList := by
  rw [step, checkAndFitBounds_markers, applyBranch_markers]

lemma step_circles (total : Nat) (s : PassState) (b : Branch) :
    (step total s b).circles = s.circles ++ (circleOf b).toList := by
  rw [step, checkAndFitBounds_circles, applyBranch_circles]

lemma step_bounds (total : Nat) (s : PassState) (b : Branch) :
    (step total s b).bounds = s.bounds ++ (posOf b).toList := by
  rw [step, checkAndFitBounds_bounds, applyBranch_bounds]

lemma step_logs (total : Nat) (s : PassState) (b : Branch) :
    (step total s b).logs = s.logs ++ (logOf b).toList := by
  rw [step, checkAndFitBounds_logs, applyBranch_logs]

lemma step_markerCount (total : Nat) (s : PassState) (b : Branch) :
    (step total s b).markerCount = s.markerCount + 1 := by
  rw [step, checkAndFitBounds_markerCount, applyBranch_markerCount]

lemma step_fitCalls (total : Nat) (s : PassState) (b : Branch) :
    (step total s b).fitCalls =
      s.fitCalls +
        (if s.markerCount + 1 = total ∧ s.bounds ++ (posOf b).toList ≠ [] then 1 else 0) := by
  rw [step, checkAndFitBounds_fitCalls, applyBranch_fitCalls, applyBranch_markerCount,
    applyBranch_bounds]

/-! ## Field characterizations of a whole run -/

lemma runFrom_nil (total : Nat) (s : PassState) : runFrom total s [] = s := rfl

lemma runFrom_cons (total : Nat) (s : PassState) (b : Branch) (ts : List Branch) :
    runFrom total s (b :: ts) = runFrom total (step total s b) ts := rfl

lemma toList_append_filterMap {α β : Type} (f : α → Option β) (x : α) (l : List α) :
    (f x).toList ++ l.filterMap f = (x :: l).filterMap f := by
  cases h : f x <;> simp [List.filterMap_cons, h]

lemma runFrom_markers (total : Nat) :
    ∀ (ts : List Branch) (s : PassState),
      (runFrom total s ts).markers = s.markers ++ ts.filterMap markerOf := by
  intro ts
  induction ts with
  | nil => intro s; simp [runFrom_nil]
  | cons b ts ih =>
      intro s
      rw [runFrom_cons, ih, step_markers, List.append_assoc, toList_append_filterMap]

lemma runFrom_circles (total : Nat) :
    ∀ (ts : List Branch) (s : PassState),
      (runFrom total s ts).circles = s.circles ++ ts.filterMap circleOf := by
  intro ts
  induction ts with
  | nil => intro s; simp [runFrom_nil]
  | cons b ts ih =>
      intro s
      rw [runFrom_cons, ih, step_circles, List.append_assoc, toList_append_filterMap]

lemma runFrom_bounds (total : Nat) :
    ∀ (ts : List Branch) (s : PassState),
      (runFrom total s ts).bounds = s.bounds ++ ts.filterMap posOf := by
  intro ts
  induction ts with
  | nil => intro s; simp [runFrom_nil]
  | cons b ts ih =>
      intro s
      rw [runFrom_cons, ih, step_bounds, List.append_assoc, toList_append_filterMap]

lemma runFrom_logs (total : Nat) :
    ∀ (ts : List Branch) (s : PassState),
      (runFrom total s ts).logs = s.logs ++ ts.filterMap logOf := by
  intro ts
  induction ts with
  | nil => intro s; simp [runFrom_nil]
  | cons b ts ih =>
      intro s
      rw [runFrom_cons, ih, step_logs, List.append_assoc, toList_append_filterMap]

lemma runFrom_markerCount (total : Nat) :
    ∀ (ts : List Branch) (s : PassState),
      (runFrom total s ts).markerCount = s.markerCount + ts.length := by
  intro ts
  induction ts with
  | nil => intro s; simp [runFrom_nil]
  | cons b ts ih =>
      intro s
      rw [runFrom_cons, ih, step_markerCount, List.length_cons]
      omega

/-- The completion-counting bounds-fitting invariant: starting below the
expected count, with exactly the remaining events outstanding and no fit
so far, the run fits the viewport exactly once if any event (past or
pending) extended the bounds, and never otherwise. -/
lemma runFrom_fitCalls (total : Nat) :
    ∀ (ts : List Branch) (s : PassState),
      s.markerCount + ts.length = total → s.markerCount < total → s.fitCalls = 0 →
      (runFrom total s ts).fitCalls =
        (if s.bounds ++ ts.filterMap posOf = [] then 0 else 1) := by
  intro ts
  induction ts with
  | nil =>
      intro s h1 h2 _
      simp at h1
      omega
  | cons b ts ih =>
      intro s h1 h2 h3
      cases ts with
      | nil =>
          rw [runFrom_cons, runFrom_nil, step_fitCalls, h3]
          have htot : s.markerCount + 1 = total := by
            simpa using h1
          rw [← toList_append_filterMap posOf b, List.filterMap_nil, List.append_nil]
          by_cases hb : s.bounds ++ (posOf b).toList = []
          · simp [hb, htot]
          · simp [hb, htot]
      | cons c rest =>
          rw [runFrom_cons]
          have hlt : s.markerCount + 1 < total := by
            have := h1
            simp [List.length_cons] at this
            omega
          have hfit : (step total s b).fitCalls = 0 := by
            rw [step_fitCalls, h3]
            have hne : ¬ (s.markerCount + 1 = total ∧
                s.bounds ++ (posOf b).toList ≠ []) := by
              intro hcon
              exact absurd hcon.1 (by omega)
            rw [if_neg hne]
          have hcount : (step total s b).markerCount = s.markerCount + 1 :=
            step_markerCount total s b
          have := ih (step total s b)
            (by rw [hcount]; simp [List.length_cons] at h1 ⊢; omega)
            (by omega) hfit
          rw [this, step_bounds, List.append_assoc, toList_append_filterMap]

/-! ## Bridging lemmas between branches, records and counts -/

lemma length_derivedBranches (geo : Geocoder) (reqs : List ReqRecord)
    (lists : List ListRecord) :
    (derivedBranches geo reqs lists).length = totalRecords reqs lists := by
  simp [derivedBranches, totalRecords]

lemma isSuccessB_eq_isSome_posOf (b : Branch) : isSuccessB b = (posOf b).isSome := by
  cases b <;> rfl

lemma isSuccessB_eq_isSome_markerOf (b : Branch) : isSuccessB b = (markerOf b).isSome := by
  cases b <;> rfl

lemma isReqSuccessB_eq_isSome_circleOf (b : Branch) :
    isReqSuccessB b = (circleOf b).isSome := by
  cases b <;> rfl

lemma countP_isSuccessB_eq_length_filterMap (ts : List Branch) :
    ts.countP (fun b => isSuccessB b) = (ts.filterMap posOf).length := by
  rw [List.length_filterMap_eq_countP]
  have h : (fun b => isSuccessB b) = fun b => (posOf b).isSome := by
    funext b
    exact isSuccessB_eq_isSome_posOf b
  rw [h]

lemma countP_isSuccessB_eq_length_markers (ts : List Branch) :
    ts.countP (fun b => isSuccessB b) = (ts.filterMap markerOf).length := by
  rw [List.length_filterMap_eq_countP]
  have h : (fun b => isSuccessB b) = fun b => (markerOf b).isSome := by
    funext b
    exact isSuccessB_eq_isSome_markerOf b
  rw [h]

lemma countP_isReqSuccessB_eq_length_circles (ts : List Branch) :
    ts.countP (fun b => isReqSuccessB b) = (ts.filterMap circleOf).length := by
  rw [List.length_filterMap_eq_countP]
  have h : (fun b => isReqSuccessB b) = fun b => (circleOf b).isSome := by
    funext b
    exact isReqSuccessB_eq_isSome_circleOf b
  rw [h]

lemma filterMap_posOf_eq_nil_iff (ts : List Branch) :
    ts.filterMap posOf = [] ↔ ts.countP (fun b => isSuccessB b) = 0 := by
  rw [countP_isSuccessB_eq_length_filterMap, List.length_eq_zero]

/-- A Requirement record whose branch is a successful geocode had a
truthy resolved address. -/
lemma reqHasAddress_of_success (geo : Geocoder) (r : ReqRecord) :
    isSuccessB (reqBranch geo r) = true → reqHasAddress r = true := by
  intro h
  unfold reqBranch at h
  unfold reqHasAddress
  cases hr : r.throws with
  | true => rw [hr] at h; exact absurd h (by simp [isSuccessB])
  | false =>
      rw [hr] at h
      simp only [Bool.false_eq_true, if_false] at h
      cases hres : resolveReqAddress r.addressValue with
      | none => rw [hres] at h; exact absurd h (by simp [isSuccessB])
      | some a => simp [hres]

/-- A Listing record whose branch is a successful geocode had a truthy
resolved address. -/
lemma listHasAddress_of_success (geo : Geocoder) (r : ListRecord) :
    isSuccessB (listBranch geo r) = true → listHasAddress r = true := by
  intro h
  unfold listBranch at h
  unfold listHasAddress
  cases hr : r.throws with
  | true => rw [hr] at h; exact absurd h (by simp [isSuccessB])
  | false =>
      rw [hr] at h
      simp only [Bool.false_eq_true, if_false] at h
      cases hres : resolveListAddress r.address with
      | none => rw [hres] at h; exact absurd h (by simp [isSuccessB])
      | some a => simp [hres]

/-- Shape of a Requirement record's successful branch. -/
lemma reqBranch_eq_success (geo : Geocoder) (r : ReqRecord) (a : String) (p : Pos)
    (hr : r.throws = false) (hres : resolveReqAddress r.addressValue = some a)
    (hgeo : geo a = some p) :
    reqBranch geo r = Branch.reqSuccess p := by
  unfold reqBranch
  rw [hr, hres]
  simp [hgeo]

/-- Shape of a Listing record's successful branch. -/
lemma listBranch_eq_success (geo : Geocoder) (r : ListRecord) (a : String) (p : Pos)
    (hr : r.throws = false) (hres : resolveListAddress r.address = some a)
    (hgeo : geo a = some p) :
    listBranch geo r = Branch.listSuccess p := by
  unfold listBranch
  rw [hr, hres]
  simp [hgeo]

/-- Whenever `circleOf` produces a circle, that circle comes from a
successful Requirement geocode at the circle's own center, with the fixed
radius. -/
lemma circleOf_eq_some (b : Branch) (c : Circle) (h : circleOf b = some c) :
    b = Branch.reqSuccess c.center ∧ c.radius = requirementCircleRadius := by
  cases b with
  | reqSuccess p =>
      simp only [circleOf, Option.some.injEq] at h
      subst h
      exact ⟨rfl, rfl⟩
  | reqGeoFail => simp [circleOf] at h
  | reqMissingAddr => simp [circleOf] at h
  | reqException => simp [circleOf] at h
  | listSuccess p => simp [circleOf] at h
  | listGeoFail => simp [circleOf] at h
  | listMissingAddr => simp [circleOf] at h
  | listException => simp [circleOf] at h

lemma runTicks_markers (total : Nat) (ts : List Branch) :
    (runTicks total ts).markers = ts.filterMap markerOf := by
  unfold runTicks
  rw [runFrom_markers]
  simp [initState]

lemma runTicks_circles (total : Nat) (ts : List Branch) :
    (runTicks total ts).circles = ts.filterMap circleOf := by
  unfold runTicks
  rw [runFrom_circles]
  simp [initState]

lemma runTicks_bounds (total : Nat) (ts : List Branch) :
    (runTicks total ts).bounds = ts.filterMap posOf := by
  unfold runTicks
  rw [runFrom_bounds]
  simp [initState]

lemma runTicks_logs (total : Nat) (ts : List Branch) :
    (runTicks total ts).logs = ts.filterMap logOf := by
  unfold runTicks
  rw [runFrom_logs]
  simp [initState]

lemma runTicks_markerCount (total : Nat) (ts : List Branch) :
    (runTicks total ts).markerCount = ts.length := by
  unfold runTicks
  rw [runFrom_markerCount]
  simp [initState]

/-- Interleaving two passes' completion events: each pass's state evolves
exactly as if its own events had run alone, because every event only
touches the counter/bounds pair of the closure that captured it. -/
lemma foldl_stepTagged (totalA totalB : Nat) :
    ∀ (ts : List (Bool × Branch)) (sA sB : PassState),
      ts.foldl (stepTagged totalA totalB) (sA, sB) =
        (runFrom totalA sA ((ts.filter fun t => t.1).map Prod.snd),
         runFrom totalB sB ((ts.filter fun t => !t.1).map Prod.snd)) := by
  intro ts
  induction ts with
  | nil =>
      intro sA sB
      simp [runFrom_nil]
  | cons t ts ih =>
      intro sA sB
      obtain ⟨tag, b⟩ := t
      cases tag with
      | true =>
          rw [List.foldl_cons]
          have hstep : stepTagged totalA totalB (sA, sB) (true, b) =
              (step totalA sA b, sB) := rfl
          rw [hstep, ih]
          simp [List.filter_cons, runFrom_cons]
      | false =>
          rw [List.foldl_cons]
          have hstep : stepTagged totalA totalB (sA, sB) (false, b) =
              (sA, step totalB sB b) := rfl
          rw [hstep, ih]
          simp [List.filter_cons, runFrom_cons]

/-! ## The claims -/

/-- C1: for every sync pass — i.e. for every settling order of its
per-record completion events — the fit-to-bounds operation is invoked at
most once; it is invoked exactly once if and only if the completion
counter has reached the expected callback count (one tick per record
across both collections) and at least one geocode succeeded; and it is
never invoked when zero geocodes succeeded. -/
theorem C1_fitBounds_exactly_once (geo : Geocoder) (reqs : List ReqRecord)
    (lists : List ListRecord) (ts : List Branch)
    (hperm : ts.Perm (derivedBranches geo reqs lists)) :
    (runTicks (totalRecords reqs lists) ts).fitCalls ≤ 1 ∧
    ((runTicks (totalRecords reqs lists) ts).fitCalls = 1 ↔
      ((runTicks (totalRecords reqs lists) ts).markerCount = totalRecords reqs lists ∧
        0 < ts.countP fun b => isSuccessB b)) ∧
    ((ts.countP fun b => isSuccessB b) = 0 →
      (runTicks (totalRecords reqs lists) ts).fitCalls = 0) := by
  have hlen : ts.length = totalRecords reqs lists := by
    rw [hperm.length_eq, length_derivedBranches]
  have hcount : (runTicks (totalRecords reqs lists) ts).markerCount
      = totalRecords reqs lists := by
    rw [runTicks_markerCount, hlen]
  by_cases h0 : totalRecords reqs lists = 0
  · have hts : ts = [] := List.length_eq_zero.mp (by rw [hlen, h0])
    subst hts
    refine ⟨?_, ?_, fun _ => ?_⟩
    · simp [runTicks, runFrom_nil, initState]
    · simp [runTicks, runFrom_nil, initState]
    · simp [runTicks, runFrom_nil, initState]
  · have hfit := runFrom_fitCalls (totalRecords reqs lists) ts initState
      (by simpa [initState] using hlen) (by simp [initState]; omega) rfl
    have hb : initState.bounds ++ ts.filterMap posOf = ts.filterMap posOf := by
      simp [initState]
    rw [hb] at hfit
    have hfit' : (runTicks (totalRecords reqs lists) ts).fitCalls =
        if ts.filterMap posOf = [] then 0 else 1 := hfit
    by_cases hnil : ts.filterMap posOf = []
    · have hz : (ts.countP fun b => isSuccessB b) = 0 :=
        (filterMap_posOf_eq_nil_iff ts).mp hnil
      rw [hfit', if_pos hnil]
      refine ⟨by omega, ?_, fun _ => rfl⟩
      constructor
      · intro h
        omega
      · intro h
        rw [hz] at h
        exact absurd h.2 (by omega)
    · have hz : (ts.countP fun b => isSuccessB b) ≠ 0 := fun hc =>
        hnil ((filterMap_posOf_eq_nil_iff ts).mpr hc)
      rw [hfit', if_neg hnil]
      refine ⟨Nat.le_refl 1, ?_, fun hc => absurd hc hz⟩
      constructor
      · intro _
        exact ⟨hcount, by omega⟩
      · intro _
        rfl

/-- Witness for C1 at a concrete pass: one Requirement with address
`"A"` and one Listing with address `"B"`, both geocoding successfully. -/
theorem C1_fitBounds_exactly_once_witness :
    (derivedBranches geoAll [reqA] [listB]).Perm (derivedBranches geoAll [reqA] [listB]) ∧
    (runTicks (totalRecords [reqA] [listB]) (derivedBranches geoAll [reqA] [listB])).fitCalls ≤ 1 :=
  ⟨List.Perm.refl _,
    (C1_fitBounds_exactly_once geoAll [reqA] [listB]
      (derivedBranches geoAll [reqA] [listB]) (List.Perm.refl _)).1⟩

/-- C2 counterexample: a single Requirement record with a non-empty
address that geocodes successfully.  The pass creates two overlays — a
marker and its companion circle — although only one record has a
non-empty address and only one geocode callback returned success, so the
claimed bound (overlays ≤ records with address) and the claimed equality
(overlays = successful callbacks) both fail. -/
theorem C2_overlays_counterexample :
    overlaysCreated (runPass geoAll [reqA] []) = 2 ∧
    [reqA].countP (fun r => reqHasAddress r) = 1 ∧
    (derivedBranches geoAll [reqA] []).countP (fun b => isSuccessB b) = 1 ∧
    ¬ overlaysCreated (runPass geoAll [reqA] []) ≤
        [reqA].countP (fun r => reqHasAddress r) ∧
    overlaysCreated (runPass geoAll [reqA] []) ≠
      (derivedBranches geoAll [reqA] []).countP (fun b => isSuccessB b) := by
  decide

/-- C2 amended: counting markers (rather than all overlays, since each
successful Requirement callback creates a companion circle in addition to
its marker), for every pair of input record collections and every
settling order the number of markers created is at most the number of
records with a non-empty address field and equals exactly the number of
successful geocode callbacks; the number of circles equals the number of
successful Requirement callbacks. -/
theorem C2_markers_amended (geo : Geocoder) (reqs : List ReqRecord)
    (lists : List ListRecord) (ts : List Branch)
    (hperm : ts.Perm (derivedBranches geo reqs lists)) :
    (runTicks (totalRecords reqs lists) ts).markers.length =
      (ts.countP fun b => isSuccessB b) ∧
    (ts.countP fun b => isSuccessB b) ≤
      reqs.countP (fun r => reqHasAddress r) +
        lists.countP (fun r => listHasAddress r) ∧
    (runTicks (totalRecords reqs lists) ts).circles.length =
      (ts.countP fun b => isReqSuccessB b) := by
  refine ⟨?_, ?_, ?_⟩
  · rw [runTicks_markers, countP_isSuccessB_eq_length_markers]
  · rw [hperm.countP_eq (fun b => isSuccessB b), derivedBranches,
      List.countP_append, List.countP_map, List.countP_map]
    apply Nat.add_le_add
    · exact List.countP_mono_left fun r _ h => reqHasAddress_of_success geo r h
    · exact List.countP_mono_left fun r _ h => listHasAddress_of_success geo r h
  · rw [runTicks_circles, countP_isReqSuccessB_eq_length_circles]

/-- Witness for the amended C2 at a concrete pass: one Requirement and
one Listing, both geocoding successfully. -/
theorem C2_markers_amended_witness :
    (derivedBranches geoAll [reqA] [listB]).Perm (derivedBranches geoAll [reqA] [listB]) ∧
    (runTicks (totalRecords [reqA] [listB]) (derivedBranches geoAll [reqA] [listB])).markers.length =
      ((derivedBranches geoAll [reqA] [listB]).countP fun b => isSuccessB b) :=
  ⟨List.Perm.refl _,
    (C2_markers_amended geoAll [reqA] [listB]
      (derivedBranches geoAll [reqA] [listB]) (List.Perm.refl _)).1⟩

/-- C3: the expected callback count of a pass is the total number of
records across both collections — address or no address — and the pass
generates exactly that many completion events. -/
theorem C3_expectedCallbacks (geo : Geocoder) (reqs : List ReqRecord)
    (lists : List ListRecord) :
    totalRecords reqs lists = reqs.length + lists.length ∧
    (derivedBranches geo reqs lists).length = totalRecords reqs lists :=
  ⟨rfl, length_derivedBranches geo reqs lists⟩

/-- C4: a Requirement record whose geocode succeeds yields one marker
and one companion circle of radius exactly 24140.16 meters centered at
the geocoded position; a Listing record whose geocode succeeds yields
one marker; every circle has radius 24140.16 and stems from a successful
Requirement geocode at its center (so circles only accompany Requirement
markers); and the marker/circle counts equal the respective success
counts. -/
theorem C4_marker_and_circle (geo : Geocoder) (reqs : List ReqRecord)
    (lists : List ListRecord) (ts : List Branch)
    (hperm : ts.Perm (derivedBranches geo reqs lists)) :
    (∀ r ∈ reqs, r.throws = false →
      ∀ a, resolveReqAddress r.addressValue = some a →
      ∀ p, geo a = some p →
        Marker.mk p RecKind.requirement ∈ (runTicks (totalRecords reqs lists) ts).markers ∧
        Circle.mk p requirementCircleRadius ∈ (runTicks (totalRecords reqs lists) ts).circles) ∧
    (∀ r ∈ lists, r.throws = false →
      ∀ a, resolveListAddress r.address = some a →
      ∀ p, geo a = some p →
        Marker.mk p RecKind.listing ∈ (runTicks (totalRecords reqs lists) ts).markers) ∧
    (∀ c ∈ (runTicks (totalRecords reqs lists) ts).circles,
      c.radius = 24140.16 ∧ Branch.reqSuccess c.center ∈ ts) ∧
    (runTicks (totalRecords reqs lists) ts).circles.length =
      (ts.countP fun b => isReqSuccessB b) ∧
    (runTicks (totalRecords reqs lists) ts).markers.length =
      (ts.countP fun b => isSuccessB b) := by
  refine ⟨?_, ?_, ?_, ?_, ?_⟩
  · intro r hr hthrow a hres p hgeo
    have hbr : Branch.reqSuccess p ∈ derivedBranches geo reqs lists := by
      unfold derivedBranches
      apply List.mem_append_left
      rw [← reqBranch_eq_success geo r a p hthrow hres hgeo]
      exact List.mem_map_of_mem _ hr
    have hbts : Branch.reqSuccess p ∈ ts := hperm.mem_iff.mpr hbr
    constructor
    · rw [runTicks_markers]
      exact List.mem_filterMap.mpr ⟨Branch.reqSuccess p, hbts, rfl⟩
    · rw [runTicks_circles]
      exact List.mem_filterMap.mpr ⟨Branch.reqSuccess p, hbts, rfl⟩
  · intro r hr hthrow a hres p hgeo
    have hbr : Branch.listSuccess p ∈ derivedBranches geo reqs lists := by
      unfold derivedBranches
      apply List.mem_append_right
      rw [← listBranch_eq_success geo r a p hthrow hres hgeo]
      exact List.mem_map_of_mem _ hr
    have hbts : Branch.listSuccess p ∈ ts := hperm.mem_iff.mpr hbr
    rw [runTicks_markers]
    exact List.mem_filterMap.mpr ⟨Branch.listSuccess p, hbts, rfl⟩
  · intro c hcmem
    rw [runTicks_circles] at hcmem
    obtain ⟨b, hbts, hcb⟩ := List.mem_filterMap.mp hcmem
    obtain ⟨hbe, hrad⟩ := circleOf_eq_some b c hcb
    exact ⟨hrad, hbe ▸ hbts⟩
  · rw [runTicks_circles, countP_isReqSuccessB_eq_length_circles]
  · rw [runTicks_markers, countP_isSuccessB_eq_length_markers]

/-- Witness for C4 at a concrete pass: the Requirement with address
`"A"` geocodes to (1, 2) and its marker and circle are created. -/
theorem C4_marker_and_circle_witness :
    (derivedBranches geoAll [reqA] []).Perm (derivedBranches geoAll [reqA] []) ∧
    reqA ∈ [reqA] ∧ reqA.throws = false ∧
    resolveReqAddress reqA.addressValue = some "A" ∧
    geoAll "A" = some { lat := 1, lng := 2 } ∧
    (Marker.mk { lat := 1, lng := 2 } RecKind.requirement ∈
        (runTicks (totalRecords [reqA] []) (derivedBranches geoAll [reqA] [])).markers ∧
      Circle.mk { lat := 1, lng := 2 } requirementCircleRadius ∈
        (runTicks (totalRecords [reqA] []) (derivedBranches geoAll [reqA] [])).circles) :=
  ⟨List.Perm.refl _, List.mem_singleton_self reqA, rfl, by decide, rfl,
    (C4_marker_and_circle geoAll [reqA] [] (derivedBranches geoAll [reqA] [])
        (List.Perm.refl _)).1 reqA (List.mem_singleton_self reqA) rfl "A" (by decide)
      { lat := 1, lng := 2 } rfl⟩

/-- C5 counterexample: a Listing record whose address cell is empty.
The pass issues no geocode request, creates no overlay and still ticks
the completion counter — but, contrary to the claim, nothing at all is
logged for the missing address (lines 551-553 have no `console.warn`):
the pass's console log stays empty, so no missing-address condition is
recorded, distinctly or otherwise. -/
theorem C5_missing_address_counterexample :
    geocodeRequests geoAll [] [listEmptyAddr] = 0 ∧
    (runPass geoAll [] [listEmptyAddr]).markers = [] ∧
    (runPass geoAll [] [listEmptyAddr]).circles = [] ∧
    (runPass geoAll [] [listEmptyAddr]).markerCount = 1 ∧
    (runPass geoAll [] [listEmptyAddr]).logs = [] := by
  decide

/-- C5 amended: a record whose resolved address text is empty or absent
triggers no geocode request, creates no overlay, and still increments the
completion counter by one.  For Requirement records the missing address
is logged (`No address found`), a condition distinct from the geocode
failure warning; for Listing records nothing is logged. -/
theorem C5_missing_address_amended (geo : Geocoder) (total : Nat) (s : PassState)
    (r : ReqRecord) (l : ListRecord)
    (hr : r.throws = false) (hra : resolveReqAddress r.addressValue = none)
    (hl : l.throws = false) (hla : resolveListAddress l.address = none) :
    reqBranch geo r = Branch.reqMissingAddr ∧
    listBranch geo l = Branch.listMissingAddr ∧
    issuesRequest Branch.reqMissingAddr = false ∧
    issuesRequest Branch.listMissingAddr = false ∧
    (step total s Branch.reqMissingAddr).markers = s.markers ∧
    (step total s Branch.reqMissingAddr).circles = s.circles ∧
    (step total s Branch.reqMissingAddr).markerCount = s.markerCount + 1 ∧
    (step total s Branch.reqMissingAddr).logs = s.logs ++ [LogKind.noAddressFound] ∧
    (step total s Branch.listMissingAddr).markers = s.markers ∧
    (step total s Branch.listMissingAddr).circles = s.circles ∧
    (step total s Branch.listMissingAddr).markerCount = s.markerCount + 1 ∧
    (step total s Branch.listMissingAddr).logs = s.logs ∧
    LogKind.noAddressFound ≠ LogKind.geocodeFailed := by
  refine ⟨?_, ?_, rfl, rfl, ?_, ?_, ?_, ?_, ?_, ?_, ?_, ?_, by decide⟩
  · simp [reqBranch, hr, hra]
  · simp [listBranch, hl, hla]
  · simp [step_markers, markerOf]
  · simp [step_circles, circleOf]
  · exact step_markerCount total s Branch.reqMissingAddr
  · simp [step_logs, logOf]
  · simp [step_markers, markerOf]
  · simp [step_circles, circleOf]
  · exact step_markerCount total s Branch.listMissingAddr
  · simp [step_logs, logOf]

/-- Witness for the amended C5 at concrete records: a Requirement with a
null address cell and a Listing with an empty address string. -/
theorem C5_missing_address_amended_witness :
    reqNoAddr.throws = false ∧
    resolveReqAddress reqNoAddr.addressValue = none ∧
    listEmptyAddr.throws = false ∧
    resolveListAddress listEmptyAddr.address = none ∧
    reqBranch geoAll reqNoAddr = Branch.reqMissingAddr :=
  ⟨rfl, rfl, rfl, by decide,
    (C5_missing_address_amended geoAll 5 initState reqNoAddr listEmptyAddr
      rfl rfl rfl (by decide)).1⟩

/-- C6: a record whose geocode callback reports a failure status creates
no marker and no circle, still increments the completion counter by one,
and only appends a console warning — the branch is a total function of
the state, so no exception escapes it — while the pass still processes
every record: its final counter always equals the total record count. -/
theorem C6_geocode_failure (geo : Geocoder) (total : Nat) (s : PassState)
    (r : ReqRecord) (l : ListRecord) (a b : String)
    (hr : r.throws = false) (hra : resolveReqAddress r.addressValue = some a)
    (hga : geo a = none)
    (hl : l.throws = false) (hlb : resolveListAddress l.address = some b)
    (hgb : geo b = none) :
    reqBranch geo r = Branch.reqGeoFail ∧
    listBranch geo l = Branch.listGeoFail ∧
    markerOf Branch.reqGeoFail = none ∧
    circleOf Branch.reqGeoFail = none ∧
    markerOf Branch.listGeoFail = none ∧
    circleOf Branch.listGeoFail = none ∧
    (step total s Branch.reqGeoFail).markers = s.markers ∧
    (step total s Branch.reqGeoFail).circles = s.circles ∧
    (step total s Branch.reqGeoFail).markerCount = s.markerCount + 1 ∧
    (step total s Branch.reqGeoFail).logs = s.logs ++ [LogKind.geocodeFailed] ∧
    (step total s Branch.listGeoFail).markers = s.markers ∧
    (step total s Branch.listGeoFail).circles = s.circles ∧
    (step total s Branch.listGeoFail).markerCount = s.markerCount + 1 ∧
    (step total s Branch.listGeoFail).logs = s.logs ++ [LogKind.geocodeFailed] ∧
    (∀ (reqs : List ReqRecord) (lists : List ListRecord),
      (runPass geo reqs lists).markerCount = totalRecords reqs lists) := by
  refine ⟨?_, ?_, rfl, rfl, rfl, rfl, ?_, ?_, ?_, ?_, ?_, ?_, ?_, ?_, ?_⟩
  · simp [reqBranch, hr, hra, hga]
  · simp [listBranch, hl, hlb, hgb]
  · simp [step_markers, markerOf]
  · simp [step_circles, circleOf]
  · exact step_markerCount total s Branch.reqGeoFail
  · simp [step_logs, logOf]
  · simp [step_markers, markerOf]
  · simp [step_circles, circleOf]
  · exact step_markerCount total s Branch.listGeoFail
  · simp [step_logs, logOf]
  · intro reqs lists
    rw [runPass, runTicks_markerCount, length_derivedBranches]

/-- Witness for C6 at concrete records: the Requirement resolving to
`"A"` and the Listing resolving to `"B"`, with a geocoder that fails on
every address. -/
theorem C6_geocode_failure_witness :
    reqA.throws = false ∧
    resolveReqAddress reqA.addressValue = some "A" ∧
    geoNone "A" = none ∧
    listB.throws = false ∧
    resolveListAddress listB.address = some "B" ∧
    geoNone "B" = none ∧
    reqBranch geoNone reqA = Branch.reqGeoFail :=
  ⟨rfl, by decide, rfl, rfl, by decide, rfl,
    (C6_geocode_failure geoNone 5 initState reqA listB "A" "B"
      rfl (by decide) rfl rfl (by decide) rfl).1⟩

/-- C7: every pass begins by detaching exactly the previous pass's
markers and circles and emptying the holding lists; the rebuilt overlay
set depends only on the pass's inputs and not on the previous refs, so
re-running the pass on identical inputs is idempotent; and any two
settling orders of the same pass yield the same overlay content up to
permutation, with no stale overlay surviving. -/
theorem C7_clear_idempotent (geo : Geocoder) (reqs : List ReqRecord)
    (lists : List ListRecord) (refs : Refs) (ts1 ts2 : List Branch)
    (h1 : ts1.Perm (derivedBranches geo reqs lists))
    (h2 : ts2.Perm (derivedBranches geo reqs lists)) :
    (syncPass geo reqs lists refs).2 = (refs.markers, refs.circles) ∧
    (syncPass geo reqs lists ((syncPass geo reqs lists refs).1)).1 =
      (syncPass geo reqs lists refs).1 ∧
    (∀ refs' : Refs, (syncPass geo reqs lists refs').1 = (syncPass geo reqs lists refs).1) ∧
    ((runTicks (totalRecords reqs lists) ts1).markers).Perm
      ((runTicks (totalRecords reqs lists) ts2).markers) ∧
    ((runTicks (totalRecords reqs lists) ts1).circles).Perm
      ((runTicks (totalRecords reqs lists) ts2).circles) := by
  refine ⟨rfl, rfl, fun _ => rfl, ?_, ?_⟩
  · rw [runTicks_markers, runTicks_markers]
    exact (h1.trans h2.symm).filterMap markerOf
  · rw [runTicks_circles, runTicks_circles]
    exact (h1.trans h2.symm).filterMap circleOf

/-- Witness for C7 at a concrete pass with a non-empty previous refs
list: the detached handles are exactly the previous overlays. -/
theorem C7_clear_idempotent_witness :
    (derivedBranches geoAll [reqA] [listB]).Perm (derivedBranches geoAll [reqA] [listB]) ∧
    (syncPass geoAll [reqA] [listB]
        { markers := [{ position := { lat := 7, lng := 8 }, kind := RecKind.listing }],
          circles := [] }).2 =
      ([{ position := { lat := 7, lng := 8 }, kind := RecKind.listing }], []) :=
  ⟨List.Perm.refl _,
    (C7_clear_idempotent geoAll [reqA] [listB]
      { markers := [{ position := { lat := 7, lng := 8 }, kind := RecKind.listing }],
        circles := [] }
      (derivedBranches geoAll [reqA] [listB]) (derivedBranches geoAll [reqA] [listB])
      (List.Perm.refl _) (List.Perm.refl _)).1⟩

/-- C8: an interleaved execution of an earlier pass and a newer pass —
each holding its own closure-captured `bounds`, `markerCount` and
`checkAndFitBounds` — leaves each pass's state exactly as if its own
callbacks had run alone: a stale callback increments only its own pass's
counter and extends only its own pass's bounds, so it can never alter
the newer pass's completion detection or its fit decision. -/
theorem C8_pass_isolation (totalA totalB : Nat) (ts : List (Bool × Branch)) :
    runInterleaved totalA totalB ts =
      (runTicks totalA ((ts.filter fun t => t.1).map Prod.snd),
       runTicks totalB ((ts.filter fun t => !t.1).map Prod.snd)) ∧
    (runInterleaved totalA totalB ts).1.markerCount =
      (ts.filter fun t => t.1).length ∧
    (runInterleaved totalA totalB ts).2.markerCount =
      (ts.filter fun t => !t.1).length ∧
    (runInterleaved totalA totalB ts).1.fitCalls =
      (runTicks totalA ((ts.filter fun t => t.1).map Prod.snd)).fitCalls ∧
    (runInterleaved totalA totalB ts).2.fitCalls =
      (runTicks totalB ((ts.filter fun t => !t.1).map Prod.snd)).fitCalls := by
  have h : runInterleaved totalA totalB ts =
      (runTicks totalA ((ts.filter fun t => t.1).map Prod.snd),
       runTicks totalB ((ts.filter fun t => !t.1).map Prod.snd)) :=
    foldl_stepTagged totalA totalB ts initState initState
  refine ⟨h, ?_, ?_, ?_, ?_⟩
  · rw [h]
    exact (runTicks_markerCount _ _).trans (List.length_map _ _)
  · rw [h]
    exact (runTicks_markerCount _ _).trans (List.length_map _ _)
  · rw [h]
  · rw [h]

/-- C9: a record whose field reads throw is caught by the per-record
`catch`: no geocode request is issued for it, no overlay is created, the
completion counter still increments by one, an `Error processing` warning
is logged, and all other records of the pass keep their own branches —
the event list of a pass containing the throwing record decomposes
around it, untouched elsewhere. -/
theorem C9_exception_caught (geo : Geocoder) (total : Nat) (s : PassState)
    (r : ReqRecord) (l : ListRecord)
    (hr : r.throws = true) (hl : l.throws = true) :
    reqBranch geo r = Branch.reqException ∧
    listBranch geo l = Branch.listException ∧
    issuesRequest Branch.reqException = false ∧
    issuesRequest Branch.listException = false ∧
    (step total s Branch.reqException).markers = s.markers ∧
    (step total s Branch.reqException).circles = s.circles ∧
    (step total s Branch.reqException).markerCount = s.markerCount + 1 ∧
    (step total s Branch.reqException).logs = s.logs ++ [LogKind.processingError] ∧
    (step total s Branch.listException).markers = s.markers ∧
    (step total s Branch.listException).circles = s.circles ∧
    (step total s Branch.listException).markerCount = s.markerCount + 1 ∧
    (step total s Branch.listException).logs = s.logs ++ [LogKind.processingError] ∧
    (∀ (pre post : List ReqRecord) (lists' : List ListRecord),
      derivedBranches geo (pre ++ r :: post) lists' =
        pre.map (reqBranch geo) ++
          Branch.reqException :: (post.map (reqBranch geo) ++ lists'.map (listBranch geo))) ∧
    (∀ (reqs' : List ReqRecord) (pre post : List ListRecord),
      derivedBranches geo reqs' (pre ++ l :: post) =
        reqs'.map (reqBranch geo) ++
          (pre.map (listBranch geo) ++ Branch.listException :: post.map (listBranch geo))) := by
  have hbr : reqBranch geo r = Branch.reqException := by simp [reqBranch, hr]
  have hbl : listBranch geo l = Branch.listException := by simp [listBranch, hl]
  refine ⟨hbr, hbl, rfl, rfl, ?_, ?_, ?_, ?_, ?_, ?_, ?_, ?_, ?_, ?_⟩
  · simp [step_markers, markerOf]
  · simp [step_circles, circleOf]
  · exact step_markerCount total s Branch.reqException
  · simp [step_logs, logOf]
  · simp [step_markers, markerOf]
  · simp [step_circles, circleOf]
  · exact step_markerCount total s Branch.listException
  · simp [step_logs, logOf]
  · intro pre post lists'
    unfold derivedBranches
    rw [List.map_append, List.map_cons, hbr, List.append_assoc]
    simp
  · intro reqs' pre post
    unfold derivedBranches
    rw [List.map_append, List.map_cons, hbl]

/-- Witness for C9 at concrete throwing records. -/
theorem C9_exception_caught_witness :
    reqThrows.throws = true ∧
    listThrows.throws = true ∧
    reqBranch geoAll reqThrows = Branch.reqException :=
  ⟨rfl, rfl,
    (C9_exception_caught geoAll 5 initState reqThrows listThrows rfl rfl).1⟩

/-- C10: with both record collections empty the pass issues no geocode
request, creates no overlay, and never invokes fit-to-bounds: there is
no completion event at all, so the completion check inside the callback
increment never runs and the pass ends in the untouched fresh state. -/
theorem C10_empty_collections (geo : Geocoder) :
    totalRecords [] [] = 0 ∧
    derivedBranches geo [] [] = [] ∧
    geocodeRequests geo [] [] = 0 ∧
    runPass geo [] [] = initState ∧
    (runPass geo [] []).fitCalls = 0 ∧
    overlaysCreated (runPass geo [] []) = 0 :=
  ⟨rfl, rfl, rfl, rfl, rfl, rfl⟩

end VesperMap
